import Mathlib

/-!
Verification of the video labeling tool template (src/src/main.py).

The program validates that every semantic tag on a video has at least one
labeled figure whose object class name matches the tag value and whose
frame index lies in the tag frame range. The embedding below translates
the data model and the three functions that carry the logic:
`is_in_range`, `check_annotation` and `check`, together with the pieces of
widget state that those functions read or write (the global `table_rows`
list, the results table, the `check_text` widget and the job buttons).
-/

set_option autoImplicit false

namespace VideoLabeling

/-- Status icon for a correct result (main.py line 12). -/
def ok_status : String := "✅"

/-- Status icon for an incorrect result (main.py line 13). -/
def error_status : String := "❌"

/-- Object class of a video object: only its name is read by the program. -/
structure ObjClass where
  name : String
deriving DecidableEq, Repr

/-- Video object carrying its object class. -/
structure VideoObject where
  obj_class : ObjClass
deriving DecidableEq, Repr

/-- A labeled figure: the program reads `figure.video_object.obj_class.name`
and `figure.frame_index`. Frame indices are Python ints, embedded as `Int`. -/
structure VideoFigure where
  video_object : VideoObject
  frame_index : Int
deriving DecidableEq, Repr

/-- A video tag: the program reads `tag.value` and
`tag.frame_range = (start, end)`. -/
structure VideoTag where
  value : String
  frame_range : Int × Int
deriving DecidableEq, Repr

/-- A video annotation, with its list of tags and list of figures. -/
structure VideoAnnotation where
  tags : List VideoTag
  figures : List VideoFigure
deriving DecidableEq, Repr

/-- Dataset info: the program reads `dataset.id` and `dataset.name`. -/
structure DatasetInfo where
  id : Int
  name : String
deriving DecidableEq, Repr

/-- Video info: the program reads `video_info.id` and `video_info.name`. -/
structure VideoInfo where
  id : Int
  name : String
deriving DecidableEq, Repr

/-- The data `check` sees for one dataset: its info and, for each video of
the dataset, the video info paired with the downloaded annotation (the
result of zipping `video_ids`, `video_names` and `anns` in main.py
line 106). -/
structure DatasetData where
  info : DatasetInfo
  videos : List (VideoInfo × VideoAnnotation)
deriving DecidableEq, Repr

/-- Membership of the int `x` in the Python `range(a, b)` (step 1):
`a ≤ x < b`. -/
def in_py_range (x a b : Int) : Bool :=
  decide (a ≤ x) && decide (x < b)

/-- The SDK helper `sly.video.get_labeling_tool_url` is external to this
repository; it is embedded as a concrete string built from its arguments,
since no claim depends on its value. -/
def get_labeling_tool_url (dataset_id video_id : Int) (frame : Int)
    (link : Bool) : String :=
  toString dataset_id ++ "/" ++ toString video_id ++ "?frame=" ++
    toString frame ++ (if link then "&link" else "")

/-- The loop of `is_in_range` (main.py lines 209-213): scan the figures,
returning `true` at the first figure whose class name equals the tag value
and whose frame index is in `range(range_start, range_end + 1)`. -/
def is_in_range_loop (tag : VideoTag) : List VideoFigure → Bool
  | [] => false
  | figure :: rest =>
    if figure.video_object.obj_class.name == tag.value then
      if in_py_range figure.frame_index tag.frame_range.1
          (tag.frame_range.2 + 1) then
        true
      else
        is_in_range_loop tag rest
    else
      is_in_range_loop tag rest

/-- `is_in_range` (main.py lines 195-213). -/
def is_in_range (tag : VideoTag) (ann : VideoAnnotation) : Bool :=
  is_in_range_loop tag ann.figures

/-- One row of the results table (main.py lines 177-187): status icon,
dataset name, video id, video name, labeling tool URL, tag value, and the
tag frame range. -/
structure TableRow where
  status : String
  dataset_name : String
  video_id : Int
  video_name : String
  url : String
  object_name : String
  frame_range : Int × Int
deriving DecidableEq, Repr

/-- The row built for one tag (main.py lines 177-187). -/
def build_row (dataset : DatasetInfo) (video_id : Int) (video_name : String)
    (status : String) (tag : VideoTag) : TableRow :=
  { status := status
    dataset_name := dataset.name
    video_id := video_id
    video_name := video_name
    url := get_labeling_tool_url dataset.id video_id tag.frame_range.1 true
    object_name := tag.value
    frame_range := tag.frame_range }

/-- The loop of `check_annotation` (main.py lines 171-192): for each tag,
compute its status, build its row, and append the row to `table_rows` when
the Show-all checkbox is checked or the status is the error icon. -/
def check_annotation_loop (show_all : Bool) (dataset : DatasetInfo)
    (video_id : Int) (video_name : String) (ann : VideoAnnotation) :
    List VideoTag → List TableRow → List TableRow
  | [], rows => rows
  | tag :: rest, rows =>
    let status := if is_in_range tag ann then ok_status else error_status
    let result := build_row dataset video_id video_name status tag
    let rows2 :=
      if show_all || (status == error_status) then rows ++ [result] else rows
    check_annotation_loop show_all dataset video_id video_name ann rest rows2

/-- `check_annotation` (main.py lines 154-192), as a function from the
global `table_rows` list before the call to the list after the call; the
checkbox state is the `show_all` argument. -/
def check_annotation (show_all : Bool) (dataset : DatasetInfo)
    (video_id : Int) (video_name : String) (ann : VideoAnnotation)
    (rows : List TableRow) : List TableRow :=
  check_annotation_loop show_all dataset video_id video_name ann ann.tags rows

/-- State of the `check_text` widget: hidden flag, text and status. -/
structure CheckTextState where
  hidden : Bool
  text : String
  status : String
deriving DecidableEq, Repr

/-- The widget state the program reads or writes: the global `table_rows`
list, the results table (hidden flag and rendered data), the `check_text`
widget, and whether the job buttons of the host UI are locked. -/
structure AppState where
  table_rows : List TableRow
  results_table_hidden : Bool
  results_table_data : List TableRow
  check_text : CheckTextState
  job_buttons_locked : Bool
deriving DecidableEq, Repr

/-- The `video_changed` event handler (main.py lines 63-76) as far as it
touches the embedded state: it calls `disable_job_buttons`, locking the
job buttons. The project-meta caching touches no state the claims are
about. -/
def video_changed (st : AppState) : AppState :=
  { st with job_buttons_locked := true }

/-- The nested for-loops of `check` (main.py lines 93-107): fold
`check_annotation` over every video of every dataset, threading the
`table_rows` list. -/
def run_rows (show_all : Bool) (datasets : List DatasetData)
    (init : List TableRow) : List TableRow :=
  datasets.foldl
    (fun acc d =>
      d.videos.foldl
        (fun acc2 v =>
          check_annotation show_all d.info v.1.id v.1.name v.2 acc2)
        acc)
    init

/-- The error text (main.py line 118). -/
def error_text : String :=
  "The labeling job is not meeting the requirements, please check the table"

/-- The success text (main.py line 124). -/
def success_text : String := "The labeling job is meeting the requirements"

/-- `check` (main.py lines 79-128): clear `table_rows`, hide the table and
the text, refill the rows from every annotation of every dataset, render
and show the table, then show the error message iff some row has the error
icon in its status column. No branch touches the job buttons: both the
block and the unlock are TODO comments in the source (lines 117 and 123). -/
def check (show_all : Bool) (datasets : List DatasetData)
    (st : AppState) : AppState :=
  let st1 : AppState :=
    { st with
      table_rows := []
      results_table_hidden := true
      check_text := { st.check_text with hidden := true } }
  let rows := run_rows show_all datasets st1.table_rows
  let st2 : AppState :=
    { st1 with
      table_rows := rows
      results_table_data := rows
      results_table_hidden := false }
  if rows.any (fun result => result.status == error_status) then
    { st2 with
      check_text := { hidden := false, text := error_text, status := "error" } }
  else
    { st2 with
      check_text :=
        { hidden := false, text := success_text, status := "success" } }

/-- The per-figure test of the `is_in_range` loop: the class name of the
figure equals the tag value and the frame index of the figure lies in
`range(range_start, range_end + 1)`. -/
def figure_matches (tag : VideoTag) (f : VideoFigure) : Bool :=
  (f.video_object.obj_class.name == tag.value) &&
    in_py_range f.frame_index tag.frame_range.1 (tag.frame_range.2 + 1)

theorem in_py_range_iff (x a b : Int) :
    in_py_range x a b = true ↔ a ≤ x ∧ x < b := by
  simp [in_py_range]

theorem is_in_range_loop_eq_any (tag : VideoTag) (l : List VideoFigure) :
    is_in_range_loop tag l = l.any (figure_matches tag) := by
  induction l with
  | nil => rfl
  | cons f rest ih =>
    simp only [is_in_range_loop, List.any_cons, figure_matches]
    by_cases h1 : f.video_object.obj_class.name == tag.value <;>
      by_cases h2 : in_py_range f.frame_index tag.frame_range.1
        (tag.frame_range.2 + 1) <;>
      simp [h1, h2, ih]

theorem is_in_range_eq_any (tag : VideoTag) (ann : VideoAnnotation) :
    is_in_range tag ann = ann.figures.any (figure_matches tag) :=
  is_in_range_loop_eq_any tag ann.figures

theorem figure_matches_iff (tag : VideoTag) (f : VideoFigure) :
    figure_matches tag f = true ↔
      f.video_object.obj_class.name = tag.value ∧
        tag.frame_range.1 ≤ f.frame_index ∧
        f.frame_index ≤ tag.frame_range.2 := by
  simp [figure_matches, in_py_range, Int.lt_add_one_iff]

theorem is_in_range_exists (tag : VideoTag) (ann : VideoAnnotation) :
    is_in_range tag ann = true ↔
      ∃ f ∈ ann.figures, f.video_object.obj_class.name = tag.value ∧
        tag.frame_range.1 ≤ f.frame_index ∧
        f.frame_index ≤ tag.frame_range.2 := by
  rw [is_in_range_eq_any, List.any_eq_true]
  constructor
  · rintro ⟨f, hf, hm⟩
    exact ⟨f, hf, (figure_matches_iff tag f).mp hm⟩
  · rintro ⟨f, hf, hm⟩
    exact ⟨f, hf, (figure_matches_iff tag f).mpr hm⟩

/-- C1: `is_in_range tag ann` is true iff some figure of the annotation
has object class name equal to the tag value and frame index inside the
inclusive frame range of the tag. -/
theorem is_in_range_iff (tag : VideoTag) (ann : VideoAnnotation) :
    is_in_range tag ann = true ↔
      ∃ f ∈ ann.figures, f.video_object.obj_class.name = tag.value ∧
        tag.frame_range.1 ≤ f.frame_index ∧
        f.frame_index ≤ tag.frame_range.2 :=
  is_in_range_exists tag ann

/-- C6: when the frame range of the tag is empty (end strictly below
start), `is_in_range` is false for every annotation, whatever its
figures are. -/
theorem is_in_range_empty_range (tag : VideoTag) (ann : VideoAnnotation)
    (h : tag.frame_range.2 < tag.frame_range.1) :
    is_in_range tag ann = false := by
  rw [Bool.eq_false_iff]
  intro htrue
  rcases (is_in_range_exists tag ann).mp htrue with ⟨f, _, _, hs, he⟩
  exact absurd (le_trans hs he) (not_le.mpr h)

/-- C6 witness: a tag with range [3, 1] fails even on an annotation that
has a figure of the matching class. -/
theorem is_in_range_empty_range_witness :
    is_in_range ⟨"car", (3, 1)⟩
      ⟨[], [⟨⟨⟨"car"⟩⟩, 2⟩, ⟨⟨⟨"car"⟩⟩, 0⟩]⟩ = false :=
  is_in_range_empty_range ⟨"car", (3, 1)⟩
    ⟨[], [⟨⟨⟨"car"⟩⟩, 2⟩, ⟨⟨⟨"car"⟩⟩, 0⟩]⟩ (by decide)

/-- C7: `is_in_range` is monotone in the figure list: if every figure of
`ann` is also a figure of `ann2` and the tag is valid on `ann`, then the
tag is valid on `ann2`. -/
theorem is_in_range_mono (tag : VideoTag) (ann ann2 : VideoAnnotation)
    (hsub : ∀ f ∈ ann.figures, f ∈ ann2.figures)
    (h : is_in_range tag ann = true) : is_in_range tag ann2 = true := by
  rcases (is_in_range_exists tag ann).mp h with ⟨f, hf, hm⟩
  exact (is_in_range_exists tag ann2).mpr ⟨f, hsub f hf, hm⟩

/-- C7 witness: the tag valid on a one-figure annotation stays valid after
a second figure is added. -/
theorem is_in_range_mono_witness :
    is_in_range ⟨"car", (0, 5)⟩ ⟨[], [⟨⟨⟨"car"⟩⟩, 3⟩, ⟨⟨⟨"dog"⟩⟩, 9⟩]⟩ =
      true :=
  is_in_range_mono ⟨"car", (0, 5)⟩ ⟨[], [⟨⟨⟨"car"⟩⟩, 3⟩]⟩
    ⟨[], [⟨⟨⟨"car"⟩⟩, 3⟩, ⟨⟨⟨"dog"⟩⟩, 9⟩]⟩ (by decide) (by decide)

/-- The rows the `check_annotation` loop produces for a list of tags,
independently of the rows already in the table: for each tag, its row
when the Show-all checkbox is checked or the status is the error icon,
nothing otherwise. -/
def rows_for (show_all : Bool) (dataset : DatasetInfo) (video_id : Int)
    (video_name : String) (ann : VideoAnnotation) :
    List VideoTag → List TableRow
  | [] => []
  | tag :: rest =>
    (let status := if is_in_range tag ann then ok_status else error_status
      if show_all || (status == error_status) then
        [build_row dataset video_id video_name status tag]
      else
        []) ++ rows_for show_all dataset video_id video_name ann rest

theorem check_annotation_loop_eq (show_all : Bool)
    (dataset : DatasetInfo) (video_id : Int) (video_name : String)
    (ann : VideoAnnotation) :
    ∀ (tags : List VideoTag) (rows : List TableRow),
      check_annotation_loop show_all dataset video_id video_name ann tags
          rows =
        rows ++ rows_for show_all dataset video_id video_name ann tags := by
  intro tags
  induction tags with
  | nil => intro rows; simp [check_annotation_loop, rows_for]
  | cons tag rest ih =>
    intro rows
    simp only [check_annotation_loop, rows_for]
    cases hc : (show_all ||
        ((if is_in_range tag ann then ok_status else error_status) ==
          error_status)) with
    | false => simp [hc, ih]
    | true => simp [hc, ih]

theorem check_annotation_eq (show_all : Bool) (dataset : DatasetInfo)
    (video_id : Int) (video_name : String) (ann : VideoAnnotation)
    (rows : List TableRow) :
    check_annotation show_all dataset video_id video_name ann rows =
      rows ++ rows_for show_all dataset video_id video_name ann
        ann.tags :=
  check_annotation_loop_eq show_all dataset video_id video_name ann
    ann.tags rows

theorem error_row_mem_rows_for (show_all : Bool) (dataset : DatasetInfo)
    (video_id : Int) (video_name : String) (ann : VideoAnnotation) :
    ∀ (tags : List VideoTag) (tag : VideoTag), tag ∈ tags →
      is_in_range tag ann = false →
      build_row dataset video_id video_name error_status tag ∈
        rows_for show_all dataset video_id video_name ann tags := by
  intro tags
  induction tags with
  | nil => intro tag hmem _; cases hmem
  | cons t rest ih =>
    intro tag hmem hfail
    rcases List.mem_cons.mp hmem with heq | hmem2
    · subst heq
      simp [rows_for, hfail]
    · exact List.mem_append_right _ (ih tag hmem2 hfail)

theorem ok_row_mem_rows_for (dataset : DatasetInfo) (video_id : Int)
    (video_name : String) (ann : VideoAnnotation) :
    ∀ (tags : List VideoTag) (tag : VideoTag), tag ∈ tags →
      is_in_range tag ann = true →
      build_row dataset video_id video_name ok_status tag ∈
        rows_for true dataset video_id video_name ann tags := by
  intro tags
  induction tags with
  | nil => intro tag hmem _; cases hmem
  | cons t rest ih =>
    intro tag hmem hok
    rcases List.mem_cons.mp hmem with heq | hmem2
    · subst heq
      simp [rows_for, hok]
    · exact List.mem_append_right _ (ih tag hmem2 hok)

theorem mem_rows_for_false (dataset : DatasetInfo) (video_id : Int)
    (video_name : String) (ann : VideoAnnotation) :
    ∀ (tags : List VideoTag) (r : TableRow),
      r ∈ rows_for false dataset video_id video_name ann tags →
      r.status = error_status := by
  intro tags
  induction tags with
  | nil => intro r hr; cases hr
  | cons t rest ih =>
    intro r hr
    rw [rows_for] at hr
    rcases List.mem_append.mp hr with hhead | htail
    · cases hin : is_in_range t ann with
      | true =>
        have hempty : (ok_status == error_status) = false := by decide
        simp [hin, hempty] at hhead
      | false =>
        simp only [hin, Bool.false_eq_true, if_false, beq_self_eq_true,
          Bool.false_or, if_true, List.mem_singleton] at hhead
        subst hhead
        rfl
    · exact ih r htail

/-- C4: every tag failing validation gets a row appended whose status
field is the error icon, whatever the state of the Show-all checkbox and
whatever rows are already in the table. -/
theorem check_annotation_error_row (show_all : Bool)
    (dataset : DatasetInfo) (video_id : Int) (video_name : String)
    (ann : VideoAnnotation) (rows : List TableRow) (tag : VideoTag)
    (h1 : tag ∈ ann.tags) (h2 : is_in_range tag ann = false) :
    build_row dataset video_id video_name error_status tag ∈
        check_annotation show_all dataset video_id video_name ann rows ∧
      (build_row dataset video_id video_name error_status tag).status =
        error_status := by
  refine ⟨?_, rfl⟩
  rw [check_annotation_eq]
  exact List.mem_append_right rows
    (error_row_mem_rows_for show_all dataset video_id video_name ann
      ann.tags tag h1 h2)

/-- C4 witness: a failing tag on a figure-free annotation produces an
error row with the checkbox unchecked. -/
theorem check_annotation_error_row_witness :
    build_row ⟨1, "ds"⟩ 10 "v" error_status ⟨"car", (0, 5)⟩ ∈
        check_annotation false ⟨1, "ds"⟩ 10 "v" ⟨[⟨"car", (0, 5)⟩], []⟩
          [] ∧
      (build_row ⟨1, "ds"⟩ 10 "v" error_status ⟨"car", (0, 5)⟩).status =
        error_status :=
  check_annotation_error_row false ⟨1, "ds"⟩ 10 "v"
    ⟨[⟨"car", (0, 5)⟩], []⟩ [] ⟨"car", (0, 5)⟩ (by decide) (by decide)

/-- C5: a tag passing validation gets its ok row into the table exactly
when the Show-all checkbox is checked; with the checkbox unchecked the ok
row does not appear. -/
theorem check_annotation_ok_row (show_all : Bool) (dataset : DatasetInfo)
    (video_id : Int) (video_name : String) (ann : VideoAnnotation)
    (tag : VideoTag) (h1 : tag ∈ ann.tags)
    (h2 : is_in_range tag ann = true) :
    build_row dataset video_id video_name ok_status tag ∈
        check_annotation show_all dataset video_id video_name ann [] ↔
      show_all = true := by
  constructor
  · intro hmem
    cases hsa : show_all with
    | true => rfl
    | false =>
      rw [hsa, check_annotation_eq, List.nil_append] at hmem
      have herr := mem_rows_for_false dataset video_id video_name ann
        ann.tags _ hmem
      have hok : (build_row dataset video_id video_name ok_status
          tag).status = ok_status := rfl
      rw [hok] at herr
      exact absurd herr (by decide)
  · intro hsa
    rw [hsa, check_annotation_eq, List.nil_append]
    exact ok_row_mem_rows_for dataset video_id video_name ann ann.tags
      tag h1 h2

/-- C5 witness: with the checkbox checked, the ok row of a passing tag is
in the table; the iff instantiated at a concrete passing tag. -/
theorem check_annotation_ok_row_witness :
    (build_row ⟨1, "ds"⟩ 10 "v" ok_status ⟨"car", (0, 5)⟩ ∈
        check_annotation true ⟨1, "ds"⟩ 10 "v"
          ⟨[⟨"car", (0, 5)⟩], [⟨⟨⟨"car"⟩⟩, 3⟩]⟩ [] ↔
      true = true) :=
  check_annotation_ok_row true ⟨1, "ds"⟩ 10 "v"
    ⟨[⟨"car", (0, 5)⟩], [⟨⟨⟨"car"⟩⟩, 3⟩]⟩ ⟨"car", (0, 5)⟩ (by decide)
    (by decide)

/-- C8: `check_annotation` only appends to the `table_rows` list it is
given (the rows already there are preserved as a prefix and the appended
suffix does not depend on them), and `is_in_range` is a pure function of
the tag value, the tag frame range and the figures of the annotation. -/
theorem check_annotation_frame_effect (show_all : Bool)
    (dataset : DatasetInfo) (video_id : Int) (video_name : String)
    (ann ann2 : VideoAnnotation) (tag tag2 : VideoTag)
    (rows : List TableRow) (hv : tag.value = tag2.value)
    (hr : tag.frame_range = tag2.frame_range)
    (hf : ann.figures = ann2.figures) :
    check_annotation show_all dataset video_id video_name ann rows =
        rows ++
          check_annotation show_all dataset video_id video_name ann [] ∧
      is_in_range tag ann = is_in_range tag2 ann2 := by
  constructor
  · rw [check_annotation_eq, check_annotation_eq, List.nil_append]
  · rw [is_in_range_eq_any, is_in_range_eq_any, hf]
    have hm : figure_matches tag = figure_matches tag2 := by
      funext f
      simp only [figure_matches, hv, hr]
    rw [hm]

/-- C8 witness: the frame conditions at concrete inputs with one row
already in the table. -/
theorem check_annotation_frame_effect_witness :
    check_annotation false ⟨1, "ds"⟩ 10 "v" ⟨[⟨"car", (0, 5)⟩], []⟩
          [build_row ⟨2, "old"⟩ 7 "w" ok_status ⟨"dog", (1, 2)⟩] =
        [build_row ⟨2, "old"⟩ 7 "w" ok_status ⟨"dog", (1, 2)⟩] ++
          check_annotation false ⟨1, "ds"⟩ 10 "v" ⟨[⟨"car", (0, 5)⟩], []⟩
            [] ∧
      is_in_range ⟨"car", (0, 5)⟩ ⟨[⟨"car", (0, 5)⟩], []⟩ =
        is_in_range ⟨"car", (0, 5)⟩ ⟨[], []⟩ :=
  check_annotation_frame_effect false ⟨1, "ds"⟩ 10 "v"
    ⟨[⟨"car", (0, 5)⟩], []⟩ ⟨[], []⟩ ⟨"car", (0, 5)⟩ ⟨"car", (0, 5)⟩
    [build_row ⟨2, "old"⟩ 7 "w" ok_status ⟨"dog", (1, 2)⟩] rfl rfl rfl

theorem rows_for_length (show_all : Bool) (dataset : DatasetInfo)
    (video_id : Int) (video_name : String) (ann : VideoAnnotation) :
    ∀ (tags : List VideoTag),
      (rows_for show_all dataset video_id video_name ann tags).length ≤
        tags.length := by
  intro tags
  induction tags with
  | nil => simp [rows_for]
  | cons t rest ih =>
    simp only [rows_for, List.length_append, List.length_cons]
    cases hc : (show_all ||
        ((if is_in_range t ann then ok_status else error_status) ==
          error_status)) with
    | false =>
      simp only [hc, Bool.false_eq_true, if_false, List.length_nil]
      omega
    | true =>
      simp only [hc, if_true, List.length_singleton]
      omega

theorem check_annotation_length (show_all : Bool)
    (dataset : DatasetInfo) (video_id : Int) (video_name : String)
    (ann : VideoAnnotation) (rows : List TableRow) :
    ( check_annotation show_all dataset video_id video_name ann
        rows).length ≤ rows.length + ann.tags.length := by
  rw [check_annotation_eq, List.length_append]
  have hle := rows_for_length show_all dataset video_id video_name ann
    ann.tags
  omega

/-- C10: the validation is a terminating linear scan: `is_in_range` obeys
the scan equations (false on an empty figure list; on a cons, true as
soon as the head figure matches, else the scan of the tail), and the
per-tag loop of `check_annotation` adds at most one row per tag of the
finite tag list. Every function involved is total by construction. -/
theorem validation_linear_scan (tag : VideoTag) (tags : List VideoTag)
    (f : VideoFigure) (figs : List VideoFigure) (show_all : Bool)
    (dataset : DatasetInfo) (video_id : Int) (video_name : String)
    (ann : VideoAnnotation) (rows : List TableRow) :
    is_in_range tag ⟨tags, []⟩ = false ∧
      is_in_range tag ⟨tags, f :: figs⟩ =
        (figure_matches tag f || is_in_range tag ⟨tags, figs⟩) ∧
      ( check_annotation show_all dataset video_id video_name ann
          rows).length ≤ rows.length + ann.tags.length := by
  refine ⟨rfl, ?_, ?_⟩
  · rw [is_in_range_eq_any, is_in_range_eq_any]
    simp [List.any_cons]
  · exact check_annotation_length show_all dataset video_id video_name
      ann rows

theorem rows_for_any_error (show_all : Bool) (dataset : DatasetInfo)
    (video_id : Int) (video_name : String) (ann : VideoAnnotation) :
    ∀ (tags : List VideoTag),
      ((rows_for show_all dataset video_id video_name ann tags).any
          fun result => result.status == error_status) =
        tags.any fun t => ! is_in_range t ann := by
  intro tags
  have hne : (ok_status == error_status) = false := by decide
  induction tags with
  | nil => rfl
  | cons t rest ih =>
    simp only [rows_for, List.any_append, List.any_cons]
    cases hin : is_in_range t ann <;> cases hsa : show_all <;>
      rw [hsa] at ih <;> simp [hin, hne, build_row, ih]

theorem videos_fold_any (show_all : Bool) (dsinfo : DatasetInfo) :
    ∀ (videos : List (VideoInfo × VideoAnnotation))
      (init : List TableRow),
      ((videos.foldl
            (fun acc v =>
              check_annotation show_all dsinfo v.1.id v.1.name v.2 acc)
            init).any fun result => result.status == error_status) =
        ((init.any fun result => result.status == error_status) ||
          videos.any fun v => v.2.tags.any fun t => ! is_in_range t v.2) := by
  intro videos
  induction videos with
  | nil => intro init; simp
  | cons v rest ih =>
    intro init
    rw [List.foldl_cons, ih, check_annotation_eq, List.any_append,
      rows_for_any_error, List.any_cons, Bool.or_assoc]

theorem run_rows_any (show_all : Bool) :
    ∀ (datasets : List DatasetData) (init : List TableRow),
      ((run_rows show_all datasets init).any
          fun result => result.status == error_status) =
        ((init.any fun result => result.status == error_status) ||
          datasets.any fun d =>
            d.videos.any fun v =>
              v.2.tags.any fun t => ! is_in_range t v.2) := by
  intro datasets
  induction datasets with
  | nil => intro init; simp [run_rows]
  | cons d rest ih =>
    intro init
    simp only [run_rows] at ih ⊢
    rw [List.foldl_cons, ih, videos_fold_any, List.any_cons,
      Bool.or_assoc]

theorem check_eq_mk (show_all : Bool) (datasets : List DatasetData)
    (st : AppState) :
    check show_all datasets st =
      { table_rows := run_rows show_all datasets []
        results_table_hidden := false
        results_table_data := run_rows show_all datasets []
        check_text :=
          if (run_rows show_all datasets []).any
              fun result => result.status == error_status then
            ⟨false, error_text, "error"⟩
          else
            ⟨false, success_text, "success"⟩
        job_buttons_locked := st.job_buttons_locked } := by
  cases hcond : ((run_rows show_all datasets []).any
      fun result => result.status == error_status) with
  | true => simp [check, hcond]
  | false => simp [check, hcond]

theorem any_fail_iff (datasets : List DatasetData) :
    (datasets.any fun d =>
        d.videos.any fun v =>
          v.2.tags.any fun t => ! is_in_range t v.2) = true ↔
      ¬ ∀ d ∈ datasets, ∀ v ∈ d.videos, ∀ t ∈ v.2.tags,
        is_in_range t v.2 = true := by
  simp only [List.any_eq_true, Bool.not_eq_true']
  push_neg
  constructor
  · rintro ⟨d, hd, v, hv, t, ht, hfail⟩
    exact ⟨d, hd, v, hv, t, ht, by simp [hfail]⟩
  · rintro ⟨d, hd, v, hv, t, ht, hfail⟩
    exact ⟨d, hd, v, hv, t, ht, by simpa using hfail⟩

theorem check_check_text (show_all : Bool) (datasets : List DatasetData)
    (st : AppState) :
    (check show_all datasets st).check_text =
      if datasets.any fun d =>
          d.videos.any fun v => v.2.tags.any fun t => ! is_in_range t v.2
      then ⟨false, error_text, "error"⟩
      else ⟨false, success_text, "success"⟩ := by
  have hany : ((run_rows show_all datasets []).any
      fun result => result.status == error_status) =
      datasets.any fun d =>
        d.videos.any fun v => v.2.tags.any fun t => ! is_in_range t v.2 := by
    rw [run_rows_any]
    rfl
  rw [check_eq_mk, ← hany]

/-- C2: after `check` runs, the message is shown, with status success iff
`is_in_range` holds for every tag of every video annotation in every
dataset, and with status error otherwise. -/
theorem check_status_iff (show_all : Bool) (datasets : List DatasetData)
    (st : AppState) :
    (check show_all datasets st).check_text.hidden = false ∧
      ((check show_all datasets st).check_text.status = "success" ↔
        ∀ d ∈ datasets, ∀ v ∈ d.videos, ∀ t ∈ v.2.tags,
          is_in_range t v.2 = true) ∧
      ((check show_all datasets st).check_text.status = "error" ↔
        ¬ ∀ d ∈ datasets, ∀ v ∈ d.videos, ∀ t ∈ v.2.tags,
          is_in_range t v.2 = true) := by
  cases hb : (datasets.any fun d =>
      d.videos.any fun v => v.2.tags.any fun t => ! is_in_range t v.2) with
  | true =>
    have hct : (check show_all datasets st).check_text =
        ⟨false, error_text, "error"⟩ := by
      rw [check_check_text, hb]
      rfl
    rw [hct]
    have hnall := (any_fail_iff datasets).mp hb
    exact ⟨rfl, iff_of_false (by decide) hnall, iff_of_true rfl hnall⟩
  | false =>
    have hct : (check show_all datasets st).check_text =
        ⟨false, success_text, "success"⟩ := by
      rw [check_check_text, hb]
      rfl
    rw [hct]
    have hall : ∀ d ∈ datasets, ∀ v ∈ d.videos, ∀ t ∈ v.2.tags,
        is_in_range t v.2 = true := by
      by_contra hc
      have hone := (any_fail_iff datasets).mpr hc
      rw [hb] at hone
      exact Bool.false_ne_true hone
    exact ⟨rfl, iff_of_true rfl hall,
      iff_of_false (by decide) (not_not_intro hall)⟩

/-- A one-dataset project whose single video carries one tag and one
figure of the matching class inside the tag frame range: every tag
passes the check. -/
def passing_project : List DatasetData :=
  [⟨⟨1, "ds"⟩, [(⟨10, "video"⟩, ⟨[⟨"car", (0, 5)⟩], [⟨⟨⟨"car"⟩⟩, 3⟩]⟩)]⟩]

/-- App state before any event: nothing shown, job buttons not locked. -/
def initial_state : AppState :=
  { table_rows := []
    results_table_hidden := true
    results_table_data := []
    check_text := ⟨true, "", ""⟩
    job_buttons_locked := false }

/-- C3: `check` never touches the job buttons (both the block and the
unlock of main.py lines 117 and 123 are TODO comments), so after a check
of a project in which every tag passes, the status is success and yet the
buttons stay as the `video_changed` handler left them: locked. -/
theorem check_leaves_job_buttons :
    (∀ (show_all : Bool) (datasets : List DatasetData) (st : AppState),
      (check show_all datasets st).job_buttons_locked =
        st.job_buttons_locked) ∧
      (check false passing_project
          (video_changed initial_state)).check_text.status = "success" ∧
      (check false passing_project
          (video_changed initial_state)).job_buttons_locked = true := by
  refine ⟨?_, ?_, ?_⟩
  · intro show_all datasets st
    rw [check_eq_mk]
  · decide
  · decide

/-- C9: the table `check` produces does not depend on the state left by a
previous click (the rows are cleared first), and running `check` twice in
a row on the same data gives the same state as running it once. -/
theorem check_idempotent (show_all : Bool) (datasets : List DatasetData)
    (st st2 : AppState) :
    (check show_all datasets st).table_rows =
        (check show_all datasets st2).table_rows ∧
      check show_all datasets (check show_all datasets st) =
        check show_all datasets st := by
  constructor
  · rw [check_eq_mk, check_eq_mk]
  · rw [check_eq_mk show_all datasets (check show_all datasets st),
      check_eq_mk show_all datasets st]

end VideoLabeling
